import Mathlib

/-!
Shallow embedding of the `foreign_vec` crate (`src/lib.rs`): a dual-mode
buffer `ForeignVec<D, T>` that stores either a natively allocated `Vec<T>`
or a foreign region `(ptr, len, owner)`, exposing a uniform read-only view.

Modelling conventions:
- `Vec<T>` contents are a `List T`; `ManuallyDrop` is transparent for data
  access (it only suppresses the automatic drop, which we model in the
  destruction events below).
- Raw pointers are `Nat`, with `0` as the null pointer; the memory an
  external allocator handed out is a function `Nat → T`, and
  `Vec::from_raw_parts(ptr, len, len)` reads the region `[ptr, ptr+len)`.
- The panic in `from_owned` (on a null pointer) is modelled as `none`.
- Destruction is modelled as the list of release events it emits:
  the Rust drop glue first runs `impl Drop for ForeignVec` and then drops
  the fields (`ManuallyDrop<Vec<T>>`, whose automatic drop is suppressed,
  and the `Allocation<D>` tag, which drops the owner in Foreign mode).
-/

/-- Mode of deallocating memory regions (`enum Allocation<D>` in the source):
either the native allocator produced the region, or a foreign owner `D` did. -/
inductive Allocation (D : Type) where
  | Native : Allocation D
  | Foreign : D → Allocation D

/-- The dual-mode buffer (`pub struct ForeignVec<D, T>`): the contents of the
`ManuallyDrop<Vec<T>>` field and the `allocation` tag. -/
structure ForeignVec (D T : Type) where
  data : List T
  allocation : Allocation D

variable {D T : Type}

/-- Contents of the memory region `[ptr, ptr+len)` read from memory `mem`,
as `Vec::from_raw_parts(ptr as *mut T, len, len)` views it. -/
def regionRead (mem : Nat → T) (ptr len : Nat) : List T :=
  (List.range len).map fun i => mem (ptr + i)

/-- Source `ForeignVec::from_owned(ptr, len, owner)`: asserts the pointer is
not null (panic modelled as `none`), then builds the storage over
`[ptr, ptr+len)` and tags the result `Foreign(owner)`. -/
def from_owned (ptr len : Nat) (mem : Nat → T) (owner : D) :
    Option (ForeignVec D T) :=
  if ptr = 0 then none
  else some ⟨regionRead mem ptr len, Allocation.Foreign owner⟩

/-- Source `ForeignVec::get_vec(&mut self)`: returns a mutable handle to the
underlying `Vec` iff the allocation is native. Modelled state-passing: the
first component is the returned handle (the sequence it points at), the
second is the buffer after the call. -/
def ForeignVec.get_vec (v : ForeignVec D T) :
    Option (List T) × ForeignVec D T :=
  match v.allocation with
  | Allocation.Foreign _ => (none, v)
  | Allocation.Native => (some v.data, v)

/-- Source `impl Deref for ForeignVec`: the read-only view is the stored
data, with no inspection of the allocation tag. -/
def ForeignVec.deref (v : ForeignVec D T) : List T :=
  v.data

/-- Release events observable during destruction: the native deallocation of
a buffer's contents, or the drop of a foreign owner value. -/
inductive Event (D T : Type) where
  | nativeFree : List T → Event D T
  | ownerDrop : D → Event D T

/-- Source `impl Drop for ForeignVec`: in Foreign mode the body does nothing;
in Native mode it takes the data out of the `ManuallyDrop` and drops it
(one `nativeFree` event), leaving an empty vector behind. Returns the events
emitted by the `drop` body together with the buffer state it leaves for the
subsequent automatic field drops. -/
def ForeignVec.dropImpl (v : ForeignVec D T) :
    List (Event D T) × ForeignVec D T :=
  match v.allocation with
  | Allocation.Foreign _ => ([], v)
  | Allocation.Native => ([Event.nativeFree v.data], ⟨[], v.allocation⟩)

/-- Automatic drop of the `allocation` field after the `Drop` body ran:
`Native` holds nothing; `Foreign owner` drops the owner value. -/
def dropAllocationField : Allocation D → List (Event D T)
  | Allocation.Native => []
  | Allocation.Foreign owner => [Event.ownerDrop owner]

/-- Full destruction of a buffer: the `Drop` body runs first, then the
fields are dropped (the `ManuallyDrop<Vec<T>>` field's automatic drop is
suppressed and emits nothing; the `allocation` field drops normally). -/
def ForeignVec.destroy (v : ForeignVec D T) : List (Event D T) :=
  (v.dropImpl).1 ++ dropAllocationField ((v.dropImpl).2).allocation

/-- Debug rendering of a slice, given a renderer for elements: the core
format `[a, b, c]` with elements separated by a comma and a space. -/
def debugSlice (reprT : T → String) (xs : List T) : String :=
  "[" ++ String.intercalate ", " (xs.map reprT) ++ "]"

/-- Source `impl Debug for ForeignVec`: formats the dereferenced slice
(`Debug::fmt(&**self, f)`), with no mode-specific formatting. -/
def ForeignVec.fmt (reprT : T → String) (v : ForeignVec D T) : String :=
  debugSlice reprT v.deref

/-- Source `impl From<Vec<T>> for ForeignVec`: wraps the vector in
`ManuallyDrop` and tags the allocation `Native`. -/
def fromVec (data : List T) : ForeignVec D T :=
  ⟨data, Allocation.Native⟩

/-- Modelled from the spec: the operation "Construction — from a native
growable buffer" of section 4.1, which the source only exposes through the
`From<Vec<T>>` implementation. The spec says: wraps the input with
`origin = Native`, no allocation, no copy, always succeeds. -/
def nativeConstructSpec (data : List T) : ForeignVec D T :=
  ⟨data, Allocation.Native⟩

/-- Boolean test of the allocation tag: `true` exactly on `Native`. -/
def isNativeAlloc : Allocation D → Bool
  | Allocation.Native => true
  | Allocation.Foreign _ => false

/-- C1: exactly one release action occurs per buffer destruction: a
Native-mode buffer emits exactly the native deallocation of its data and no
owner drop; a Foreign-mode buffer emits exactly the owner's drop and no
native deallocation — never both, never neither. -/
theorem destroy_exactly_one_release (v : ForeignVec D T) :
    v.destroy = (match v.allocation with
      | Allocation.Native => [Event.nativeFree v.data]
      | Allocation.Foreign o => [Event.ownerDrop o]) ∧
    (v.destroy).length = 1 := by
  obtain ⟨d, a⟩ := v
  cases a <;>
    simp [ForeignVec.destroy, ForeignVec.dropImpl, dropAllocationField]

/-- C2: for every foreign construction `from_owned(ptr, len, owner)` with a
non-null pointer, the resulting buffer's read-only view equals the region's
contents `[ptr, ptr+len)`, and `get_vec` returns `none` without modifying
the buffer. -/
theorem from_owned_view_and_no_mut (ptr len : Nat) (mem : Nat → T)
    (owner : D) (h : ptr ≠ 0) :
    ∃ v : ForeignVec D T, from_owned ptr len mem owner = some v ∧
      v.deref = regionRead mem ptr len ∧
      (v.get_vec).1 = none ∧ (v.get_vec).2 = v := by
  refine ⟨⟨regionRead mem ptr len, Allocation.Foreign owner⟩, ?_, rfl, rfl, rfl⟩
  simp [from_owned, h]

/-- Witness for C2 at `ptr = 1`, `len = 2`, memory `i ↦ i + 10`, unit owner. -/
theorem from_owned_view_and_no_mut_witness :
    ∃ v : ForeignVec Unit Nat,
      from_owned 1 2 (fun i => i + 10) () = some v ∧
      v.deref = regionRead (fun i => i + 10) 1 2 ∧
      (v.get_vec).1 = none ∧ (v.get_vec).2 = v :=
  from_owned_view_and_no_mut 1 2 (fun i => i + 10) () (by decide)

/-- C3: for every native construction from a sequence `S`, the read-only
view equals `S` element-for-element, and `get_vec` returns an available
mutable handle to that same sequence, leaving the buffer unchanged. -/
theorem fromVec_view_and_mut (S : List T) :
    (fromVec S : ForeignVec D T).deref = S ∧
    (fromVec S : ForeignVec D T).get_vec = (some S, fromVec S) :=
  ⟨rfl, rfl⟩

/-- C4: foreign construction with a null pointer faults (modelled as `none`)
for every length, memory, and owner value, and produces no buffer state. -/
theorem from_owned_null_faults (len : Nat) (mem : Nat → T) (owner : D) :
    from_owned 0 len mem owner = none := by
  simp [from_owned]

/-- C5: the read-only view is determined solely by the stored contents and
does not consult the allocation tag: `deref` is literally the data field,
and two buffers with equal data, one Native and one Foreign, deref to
equal slices. -/
theorem deref_uniform_across_modes (d : List T) (o : D) :
    (⟨d, Allocation.Native⟩ : ForeignVec D T).deref =
      (⟨d, Allocation.Foreign o⟩ : ForeignVec D T).deref ∧
    ∀ v : ForeignVec D T, v.deref = v.data :=
  ⟨rfl, fun _ => rfl⟩

/-- C6: `get_vec` returns an available handle exactly when the allocation is
Native and `none` exactly when it is Foreign, and it never modifies the
buffer — in particular the unavailable path has no side effects. -/
theorem get_vec_available_iff_native (v : ForeignVec D T) :
    ((v.get_vec).1.isSome = isNativeAlloc v.allocation) ∧
    (v.get_vec).2 = v := by
  obtain ⟨d, a⟩ := v
  cases a <;> simp [ForeignVec.get_vec, isNativeAlloc]

/-- C7: Debug rendering of a buffer equals the Debug rendering of its
read-only view, and buffers of different modes with equal contents render
identically. -/
theorem fmt_matches_slice (reprT : T → String) (v : ForeignVec D T)
    (d : List T) (o : D) :
    ForeignVec.fmt reprT v = debugSlice reprT v.deref ∧
    ForeignVec.fmt reprT (⟨d, Allocation.Native⟩ : ForeignVec D T) =
      ForeignVec.fmt reprT (⟨d, Allocation.Foreign o⟩ : ForeignVec D T) :=
  ⟨rfl, rfl⟩

/-- C8: the `From<Vec<T>>` conversion is identical in effect to the
spec's "construction from a native growable buffer": for every input it
succeeds, keeps the data untouched (no copy), and tags the result Native. -/
theorem fromVec_refines_native_construct (d : List T) :
    (fromVec d : ForeignVec D T) = nativeConstructSpec d ∧
    (fromVec d : ForeignVec D T).allocation = Allocation.Native ∧
    (fromVec d : ForeignVec D T).data = d :=
  ⟨rfl, rfl, rfl⟩

/-- C9: the origin tag is fixed for the buffer's lifetime: `get_vec` leaves
it unchanged, `deref` and Debug rendering do not depend on it (so cannot
branch on or alter it), and even the destruction body preserves it for the
subsequent field drops. -/
theorem origin_tag_fixed (v : ForeignVec D T) (reprT : T → String) :
    ((v.get_vec).2).allocation = v.allocation ∧
    (∀ a : Allocation D, (⟨v.data, a⟩ : ForeignVec D T).deref = v.deref) ∧
    (∀ a : Allocation D,
      ForeignVec.fmt reprT (⟨v.data, a⟩ : ForeignVec D T) =
        ForeignVec.fmt reprT v) ∧
    ((v.dropImpl).2).allocation = v.allocation := by
  obtain ⟨d, a⟩ := v
  cases a <;>
    simp [ForeignVec.get_vec, ForeignVec.deref, ForeignVec.fmt,
      ForeignVec.dropImpl, debugSlice]

/-- C10: foreign construction with a non-null pointer and length 0 succeeds
with the empty read-only view, while a null pointer still faults even at
length 0. -/
theorem from_owned_len_zero (ptr : Nat) (mem : Nat → T) (owner : D)
    (h : ptr ≠ 0) :
    from_owned ptr 0 mem owner =
      some (⟨[], Allocation.Foreign owner⟩ : ForeignVec D T) ∧
    (⟨[], Allocation.Foreign owner⟩ : ForeignVec D T).deref = [] ∧
    from_owned 0 0 mem owner = none := by
  refine ⟨?_, rfl, ?_⟩ <;> simp [from_owned, h, regionRead]

/-- Witness for C10 at `ptr = 5`, constant memory, unit owner. -/
theorem from_owned_len_zero_witness :
    from_owned 5 0 (fun _ => (0 : Nat)) () =
      some (⟨[], Allocation.Foreign ()⟩ : ForeignVec Unit Nat) ∧
    (⟨[], Allocation.Foreign ()⟩ : ForeignVec Unit Nat).deref = [] ∧
    from_owned 0 0 (fun _ => (0 : Nat)) () = none :=
  from_owned_len_zero 5 (fun _ => 0) () (by decide)
